import Mathlib

/-!
Verification of the RS-momentum / CANSLIM scoring engine.

This file is a shallow embedding, in Lean 4, of the scoring core of the
repository (src/core/momentum_analysis.py, src/core/canslim/*.py,
src/core/pullback_entries.py, src/config/settings.py).  Numeric values are
modelled as rationals (ℚ); a pandas Series / DataFrame cell that Python would
hold as None / NaN is modelled as `none : Option ℚ`.  Network and file-system
effects (yfinance downloads, CSV caches) are modelled by passing the resolved
in-memory data as explicit arguments; the control flow downstream of the data
acquisition is translated line by line from the source.
-/

namespace RSBot

/-! ## Generic helpers (list and numeric utilities used throughout) -/

/-- Last `n` elements of a list, like `pandas.Series.tail(n)` / `DataFrame.tail(n)`. -/
def lastN {α : Type} (l : List α) (n : Nat) : List α :=
  l.drop (l.length - n)

/-- Arithmetic mean of a list of rationals; `0` on the empty list (callers
guard emptiness the same way the Python source does). -/
def listMean (l : List ℚ) : ℚ :=
  if l.isEmpty then 0 else l.sum / (l.length : ℚ)

/-- Maximum of a list of rationals, `0` for the empty list (used only on
nonempty lists, mirroring `Series.max()`). -/
def listMax : List ℚ → ℚ
  | [] => 0
  | x :: xs => xs.foldl max x

/-- Translation of `numpy.clip x lo hi`. -/
def clip (x lo hi : ℚ) : ℚ :=
  max lo (min x hi)

/-- Python's `value or default` idiom applied to an optional keyword argument:
`None` and the falsy value `0` both fall back to the module default. -/
def resolveParam (x : Option ℚ) (dflt : ℚ) : ℚ :=
  match x with
  | none => dflt
  | some v => if v = 0 then dflt else v

/-- Python's `value or default` idiom for integer-valued parameters. -/
def resolveNatParam (x : Option Nat) (dflt : Nat) : Nat :=
  match x with
  | none => dflt
  | some v => if v = 0 then dflt else v

/-- Element of a list of optional cells at position `i` (`Series.iloc[i]`);
out-of-range reads never occur on the guarded paths of the source. -/
def getOpt (e : List (Option ℚ)) (i : Nat) : Option ℚ :=
  e.getD i none

/-- First cell of a series of optional values (`series[0]`), collapsing the
"empty list" and "first value is missing" cases to `none` exactly as the
source's `if not growths or growths[0] is None` test does. -/
def headOpt (e : List (Option ℚ)) : Option ℚ :=
  (e.head?).getD none

/-- Last cell of a series of optional values (`series.iloc[-1]`), `none` both
for an empty series (Python `IndexError`, caught) and for a missing cell
(Python `float(None)` raising `TypeError`, caught). -/
def lastOpt (e : List (Option ℚ)) : Option ℚ :=
  (e.getLast?).getD none

/-- Fraction of `true` entries, i.e. `pandas.Series.mean()` on a boolean
series; `0` on the empty series. -/
def boolMean (l : List Bool) : ℚ :=
  if l.isEmpty then 0 else ((l.filter id).length : ℚ) / (l.length : ℚ)

/-! ## Case-insensitive substring matching

`DataFrame.index.str.contains(pat, case=False)` with the literal patterns used
by the source (the only regex metacharacters appearing are `|` alternation and
a single `.?`, which are expanded below). -/

/-- Lower-cased character list of a string. -/
def lowerChars (s : String) : List Char :=
  s.toList.map Char.toLower

/-- Does the second list start with the first? -/
def leadsWith : List Char → List Char → Bool
  | [], _ => true
  | _ :: _, [] => false
  | a :: as, b :: bs => a == b && leadsWith as bs

/-- Does `s` contain `pat` as a contiguous sublist? -/
def hasSub (pat : List Char) : List Char → Bool
  | [] => leadsWith pat []
  | c :: cs => leadsWith pat (c :: cs) || hasSub pat cs

/-- Case-insensitive containment of the literal `pat` in the label `s`. -/
def containsCI (s pat : String) : Bool :=
  hasSub (lowerChars pat) (lowerChars s)

/-- Does `s`, at its head, match `pre`, then at most one arbitrary character,
then `post`?  (Expansion of the regex `pre.?post`.) -/
def leadsWithOptChar (pre post : List Char) (s : List Char) : Bool :=
  leadsWith pre s &&
    (let r := s.drop pre.length
     leadsWith post r ||
       (match r with
        | [] => false
        | _ :: r2 => leadsWith post r2))

/-- Does `s` contain, anywhere, `pre` then at most one arbitrary character then
`post`?  (Containment test for the regex `pre.?post`, case already folded.) -/
def hasSubOptChar (pre post : List Char) : List Char → Bool
  | [] => leadsWithOptChar pre post []
  | c :: cs => leadsWithOptChar pre post (c :: cs) || hasSubOptChar pre post cs

/-- Case-insensitive match of the regex `pre.?post` somewhere in `s`. -/
def containsOptCharCI (s pre post : String) : Bool :=
  hasSubOptChar (lowerChars pre) (lowerChars post) (lowerChars s)

/-! ## Configuration constants (src/config/settings.py)

The module is a flat sequence of constant assignments; the numeric constants
used by the scoring core are reproduced here with their source values. -/

namespace settings

def MIN_RS_SCORE : ℚ := 80
def MIN_CANSLIM_SCORE : ℚ := 70

def CANSLIM_WEIGHT_C : ℚ := 20/100
def CANSLIM_WEIGHT_A : ℚ := 15/100
def CANSLIM_WEIGHT_N : ℚ := 10/100
def CANSLIM_WEIGHT_S : ℚ := 10/100
def CANSLIM_WEIGHT_L : ℚ := 20/100
def CANSLIM_WEIGHT_I : ℚ := 10/100
def CANSLIM_WEIGHT_M : ℚ := 15/100

def PEG_COMPOSITE_BONUS : ℚ := 10

def C_GROWTH_TARGET : ℚ := 25/100
def C_GROWTH_WEIGHT : ℚ := 60/100
def C_CONSISTENCY_WEIGHT : ℚ := 20/100
def C_ACCELERATION_WEIGHT : ℚ := 20/100
def C_IPO_DATA_DISCOUNT : ℚ := 85/100

def A_GROWTH_TARGET : ℚ := 25/100
def A_ROE_TARGET : ℚ := 17/100
def A_MIN_YEARS_GROWTH : Nat := 3
def A_GROWTH_WEIGHT : ℚ := 50/100
def A_CONSISTENCY_WEIGHT : ℚ := 30/100
def A_ROE_WEIGHT : ℚ := 20/100
def A_IPO_DATA_DISCOUNT : ℚ := 80/100

def N_REVENUE_GROWTH_WEIGHT : ℚ := 50/100
def N_PROXIMITY_TO_HIGH_WEIGHT : ℚ := 50/100
def N_REVENUE_GROWTH_TARGET : ℚ := 25/100

def S_VOLUME_SURGE_THRESHOLD : ℚ := 15/10
def S_BREAKOUT_PROXIMITY : ℚ := 98/100
def S_POWER_GAP_LOOKBACK : Nat := 10
def S_TURNOVER_CAP : ℚ := 1
def S_FLOAT_WEIGHT : ℚ := 25/100
def S_UP_DOWN_VOL_WEIGHT : ℚ := 25/100
def S_SURGE_BREAKOUT_WEIGHT : ℚ := 30/100
def S_POWER_GAP_WEIGHT : ℚ := 20/100

def I_INSTITUTIONAL_CAP : ℚ := 1
def I_LEVEL_WEIGHT : ℚ := 60/100
def I_TREND_WEIGHT : ℚ := 40/100

def M_PRICE_ABOVE_200EMA_WEIGHT : ℚ := 45/100
def M_EMA_ALIGNMENT_WEIGHT : ℚ := 25/100
def M_50EMA_RISING_WEIGHT : ℚ := 20/100
def M_PRICE_ABOVE_21EMA_WEIGHT : ℚ := 10/100
def M_BULLISH_THRESHOLD : ℚ := 6/10
def M_50EMA_RISING_LOOKBACK : Nat := 20
def M_DISTRIBUTION_LOOKBACK : Nat := 25
def M_DISTRIBUTION_MIN_DECLINE : ℚ := 2/1000
def M_MAX_DISTRIBUTION_DAYS : ℚ := 5
def M_FOLLOW_THROUGH_MIN_PCT : ℚ := 15/1000
def M_FOLLOW_THROUGH_MIN_DAY : Nat := 4
def M_DISTRIBUTION_WEIGHT : ℚ := 30/100
def M_FOLLOW_THROUGH_WEIGHT : ℚ := 15/100

def RS_Q1_WEIGHT : ℚ := 40/100
def RS_Q2_WEIGHT : ℚ := 20/100
def RS_Q3_WEIGHT : ℚ := 20/100
def RS_Q4_WEIGHT : ℚ := 20/100
def RS_PERCENTILE_MIN : ℚ := 1
def RS_PERCENTILE_MAX : ℚ := 99
def RS_PERCENTILE_MULTIPLIER : ℚ := 98
def TRADING_DAYS_PER_QUARTER : Nat := 65

end settings

/-! ## Financial-statement frames

A yfinance income statement / balance sheet is a DataFrame whose index is a
list of row labels (statement line names) and whose columns are period-end
dates.  Dates are modelled as naturals; a cell is `Option ℚ`.  Every row
stores its cells in the shared column order. -/

structure StatementFrame where
  cols : List Nat
  rows : List (String × List (Option ℚ))
deriving Repr, DecidableEq

/-- `DataFrame.empty`: true iff one of the axes has length zero. -/
def frameEmpty (f : StatementFrame) : Bool :=
  f.rows.isEmpty || f.cols.isEmpty

/-- Cells of the row labelled `label` (`df.loc[label]`), in column order. -/
def locRow (f : StatementFrame) (label : String) : List (Option ℚ) :=
  match f.rows.find? (fun r => r.1 == label) with
  | some r => r.2
  | none => []

/-- Insertion step for sorting column/cell pairs by ascending date key. -/
def insertByKey (p : Nat × Option ℚ) : List (Nat × Option ℚ) → List (Nat × Option ℚ)
  | [] => [p]
  | q :: qs => if p.1 ≤ q.1 then p :: q :: qs else q :: insertByKey p qs

/-- Sort column/cell pairs by ascending date key (`Series.sort_index()`). -/
def sortIndexPairs (l : List (Nat × Option ℚ)) : List (Nat × Option ℚ) :=
  l.foldr insertByKey []

/-- Row `label` of the frame as a date-ascending series of cells:
`df.loc[label].sort_index()`. -/
def sortedRowVals (f : StatementFrame) (label : String) : List (Option ℚ) :=
  (sortIndexPairs (f.cols.zip (locRow f label))).map (fun p => p.2)

/-- Row-label test for `df.index.str.contains(r'Basic EPS|Diluted EPS',
case=False, regex=True)`. -/
def matchesEpsRow (label : String) : Bool :=
  containsCI label "Basic EPS" || containsCI label "Diluted EPS"

/-- Row-label test for `df.index.str.contains(r'Net Income', case=False)`. -/
def matchesNetIncomeRow (label : String) : Bool :=
  containsCI label "Net Income"

/-- Translation of `_find_earnings_row` (identical in c_current_earnings.py
and a_annual_earnings.py): first row whose label matches an EPS pattern,
otherwise first row matching Net Income, otherwise `None`. -/
def findEarningsRow (f : StatementFrame) : Option String :=
  match f.rows.find? (fun r => matchesEpsRow r.1) with
  | some r => some r.1
  | none =>
    match f.rows.find? (fun r => matchesNetIncomeRow r.1) with
    | some r => some r.1
    | none => none

/-- First row of the frame whose label contains `Net Income`. -/
def findNetIncomeRow (f : StatementFrame) : Option String :=
  match f.rows.find? (fun r => matchesNetIncomeRow r.1) with
  | some r => some r.1
  | none => none

/-! ## Growth arithmetic shared by the C / A / N evaluators -/

/-- Translation of `_safe_growth` (identical in the three modules): `None` when
either operand is missing or the base is (numerically close to) zero, else the
signed relative change `(current - previous) / abs(previous)`.  The
`np.isclose(previous, 0.0)` guard uses numpy's default absolute tolerance
`1e-8` (the relative-tolerance term vanishes against `0.0`). -/
def safeGrowth (current previous : Option ℚ) : Option ℚ :=
  match current, previous with
  | some c, some p =>
    if |p| ≤ 1/100000000 then none
    else some ((c - p) / |p|)
  | _, _ => none

/-- Translation of `_get_annual_growths`: year-over-year growth of consecutive
cells, most recent first. -/
def annualGrowths (e : List (Option ℚ)) : List (Option ℚ) :=
  (List.range (e.length - 1)).map fun k =>
    safeGrowth (getOpt e (e.length - 1 - k)) (getOpt e (e.length - 2 - k))

/-- Translation of `_get_quarterly_yoy_growths`: growth of each quarter versus
the quarter four periods earlier, most recent first. -/
def quarterlyYoyGrowths (e : List (Option ℚ)) : List (Option ℚ) :=
  (List.range (e.length - 4)).map fun k =>
    safeGrowth (getOpt e (e.length - 1 - k)) (getOpt e (e.length - 5 - k))

/-- Count of adjacent pairs where the earlier (more recent) growth exceeds the
later one. -/
def countAccelPairs : List ℚ → Nat
  | a :: b :: rest => (if a > b then 1 else 0) + countAccelPairs (b :: rest)
  | _ => 0

/-- Translation of `_check_acceleration`: fraction of consecutive valid growth
pairs that accelerate, `0.5` when fewer than two valid growths exist. -/
def checkAcceleration (growths : List (Option ℚ)) : ℚ :=
  let valid := growths.filterMap id
  if valid.length < 2 then 1/2
  else (countAccelPairs valid : ℚ) / ((valid.length - 1 : Nat) : ℚ)

/-! ## C — current quarterly earnings (src/core/canslim/c_current_earnings.py) -/

/-- Translation of `evaluate_c`.  Returns the pair `(score, current_growth)`.
The Python body's catch-all `except` can only be reached through pandas
internals; every explicit path is reproduced below. -/
def evaluate_c (quarterly_income : StatementFrame) (cTargetOpt : Option ℚ) :
    ℚ × Option ℚ :=
  let t := resolveParam cTargetOpt settings.C_GROWTH_TARGET
  if frameEmpty quarterly_income then (0, none)
  else
    match findEarningsRow quarterly_income with
    | none => (0, none)
    | some lbl =>
      let e := sortedRowVals quarterly_income lbl
      if e.length < 5 then
        if e.length ≥ 2 then
          match safeGrowth (getOpt e (e.length - 1)) (getOpt e (e.length - 2)) with
          | none => (0, none)
          | some g => (clip (g / t) 0 2 / 2, some g)
        else (0, none)
      else
        let yoy := quarterlyYoyGrowths e
        match headOpt yoy with
        | none => (0, none)
        | some g =>
          let growth_score := clip (g / t) 0 2 / 2
          let valid := (yoy.take 3).filterMap id
          let consistency_score :=
            if valid.isEmpty then 0
            else ((valid.filter (fun x => decide (x ≥ t))).length : ℚ) / (valid.length : ℚ)
          let acceleration_score := checkAcceleration (yoy.take 4)
          let score := clip
            (settings.C_GROWTH_WEIGHT * growth_score
              + settings.C_CONSISTENCY_WEIGHT * consistency_score
              + settings.C_ACCELERATION_WEIGHT * acceleration_score) 0 1
          (score, some g)

/-! ## A — annual earnings (src/core/canslim/a_annual_earnings.py) -/

/-- Row-label test for the balance-sheet equity patterns of `_calculate_roe`:
`Stockholders.? Equity`, `Shareholders.? Equity`, `Total Equity`,
`Common Stock Equity`, each case-insensitive, tried in this order. -/
def findEquityRow (bs : StatementFrame) : Option String :=
  match bs.rows.find? (fun r => containsOptCharCI r.1 "Stockholders" " Equity") with
  | some r => some r.1
  | none =>
    match bs.rows.find? (fun r => containsOptCharCI r.1 "Shareholders" " Equity") with
    | some r => some r.1
    | none =>
      match bs.rows.find? (fun r => containsCI r.1 "Total Equity") with
      | some r => some r.1
      | none =>
        match bs.rows.find? (fun r => containsCI r.1 "Common Stock Equity") with
        | some r => some r.1
        | none => none

/-- Translation of `_calculate_roe`: latest net income over latest positive
shareholder equity; `none` on any lookup failure (the Python body is wrapped
in a catch-all `except` returning `None`). -/
def calculateRoe (annual_income balance_sheet : StatementFrame) : Option ℚ :=
  match findNetIncomeRow annual_income with
  | none => none
  | some nlbl =>
    match lastOpt (sortedRowVals annual_income nlbl) with
    | none => none
    | some net_income =>
      match findEquityRow balance_sheet with
      | none => none
      | some elbl =>
        match lastOpt (sortedRowVals balance_sheet elbl) with
        | none => none
        | some equity_val =>
          if equity_val ≤ 0 then none else some (net_income / equity_val)

/-- Translation of `evaluate_a`.  Returns `(score, annual_growth, roe)`.
The limited-data ("IPO") branch is taken when the number of year-over-year
growth observations (`years_available = len(yoy_growths)`, one fewer than the
number of annual periods) is below `A_MIN_YEARS_GROWTH`. -/
def evaluate_a (annual_income : StatementFrame) (aTargetOpt : Option ℚ)
    (balance_sheetOpt : Option StatementFrame) : ℚ × Option ℚ × Option ℚ :=
  let t := resolveParam aTargetOpt settings.A_GROWTH_TARGET
  if frameEmpty annual_income then (0, none, none)
  else
    match findEarningsRow annual_income with
    | none => (0, none, none)
    | some lbl =>
      let e := sortedRowVals annual_income lbl
      if e.length < 2 then (0, none, none)
      else
        let yoy := annualGrowths e
        match headOpt yoy with
        | none => (0, none, none)
        | some g =>
          let growth_score := clip (g / t) 0 2 / 2
          let roe : Option ℚ :=
            match balance_sheetOpt with
            | none => none
            | some bs => if frameEmpty bs then none else calculateRoe annual_income bs
          let roe_score : ℚ :=
            match roe with
            | none => 0
            | some r => clip (r / settings.A_ROE_TARGET) 0 2 / 2
          let years_available := yoy.length
          if years_available < settings.A_MIN_YEARS_GROWTH then
            let valid := yoy.filterMap id
            let consistency_score :=
              if valid.isEmpty then 0
              else ((valid.filter (fun x => decide (x ≥ t))).length : ℚ) / (valid.length : ℚ)
            let score := (60/100 * growth_score
                + 15/100 * consistency_score
                + 25/100 * roe_score) * settings.A_IPO_DATA_DISCOUNT
            (clip score 0 1, some g, roe)
          else
            let valid := (yoy.take settings.A_MIN_YEARS_GROWTH).filterMap id
            let consistency_score :=
              if valid.isEmpty then 0
              else ((valid.filter (fun x => decide (x ≥ t))).length : ℚ) / (valid.length : ℚ)
            let score := settings.A_GROWTH_WEIGHT * growth_score
                + settings.A_CONSISTENCY_WEIGHT * consistency_score
                + settings.A_ROE_WEIGHT * roe_score
            (clip score 0 1, some g, roe)

/-! ## I — institutional sponsorship (src/core/canslim/i_institutional.py) -/

/-- Translation of `_score_ownership_level`: the piecewise sweet-spot curve
over the held fraction. -/
def scoreOwnershipLevel (held_percent : ℚ) : ℚ :=
  if held_percent < 10/100 then
    held_percent / (10/100) * (3/10)
  else if held_percent < 30/100 then
    3/10 + (held_percent - 10/100) / (20/100) * (4/10)
  else if held_percent < 60/100 then
    7/10 + (held_percent - 30/100) / (30/100) * (3/10)
  else if held_percent < 80/100 then
    1 - (held_percent - 60/100) / (20/100) * (15/100)
  else if held_percent < 90/100 then
    85/100 - (held_percent - 80/100) / (10/100) * (25/100)
  else
    max (6/10 - (held_percent - 90/100) / (10/100) * (3/10)) (3/10)

/-- Translation of `_score_ownership_trend`: five bands over the relative
quarter-over-quarter change in holder count, neutral `0.5` on missing data. -/
def scoreOwnershipTrend (current_holders previous_holders : Option ℤ) : ℚ :=
  match current_holders, previous_holders with
  | some c, some p =>
    if p ≤ 0 then 1/2
    else
      let change_pct : ℚ := ((c : ℚ) - (p : ℚ)) / (p : ℚ)
      if change_pct ≥ 10/100 then 1
      else if change_pct ≥ 3/100 then 7/10 + (change_pct - 3/100) / (7/100) * (3/10)
      else if change_pct ≥ 0 then 1/2 + change_pct / (3/100) * (2/10)
      else if change_pct ≥ -(5/100) then 1/2 + change_pct / (5/100) * (2/10)
      else max (3/10 + (change_pct + 5/100) / (15/100) * 0) (1/10)
  | _, _ => 1/2

/-- Translation of `evaluate_i`: fixed low default `0.1` when the held
fraction is unavailable, else the 60/40 blend of level and trend scores,
clipped to `[0,1]`.  The `i_institutional_cap` parameter is unused in the
source and omitted here. -/
def evaluate_i (held_percent_institutions : Option ℚ)
    (num_institutional_holders prev_num_institutional_holders : Option ℤ) : ℚ :=
  match held_percent_institutions with
  | none => 1/10
  | some h =>
    let level_score := scoreOwnershipLevel h
    let trend_score := scoreOwnershipTrend num_institutional_holders
      prev_num_institutional_holders
    clip (settings.I_LEVEL_WEIGHT * level_score
      + settings.I_TREND_WEIGHT * trend_score) 0 1

/-! ## N — new products / new highs (src/core/canslim/n_new_products.py) -/

/-- Translation of `_score_from_growth`. -/
def scoreFromGrowth (growth : Option ℚ) (target : ℚ) : ℚ :=
  match growth with
  | none => 0
  | some g => clip (g / target) 0 2 / 2

/-- First row matching `df.index.str.contains('Revenue|Total Revenue',
case=False)` (the second alternative is subsumed by the first). -/
def findRevenueRow (f : StatementFrame) : Option String :=
  match f.rows.find? (fun r => containsCI r.1 "Revenue" || containsCI r.1 "Total Revenue") with
  | some r => some r.1
  | none => none

/-- Translation of `evaluate_n`.  Returns `(score, revenue_growth)`. -/
def evaluate_n (quarterly_income : StatementFrame) (proximity_to_high : Option ℚ)
    (nRevWOpt nProxWOpt : Option ℚ) : ℚ × Option ℚ :=
  let rw := resolveParam nRevWOpt settings.N_REVENUE_GROWTH_WEIGHT
  let pw := resolveParam nProxWOpt settings.N_PROXIMITY_TO_HIGH_WEIGHT
  let revenue_growth : Option ℚ :=
    if frameEmpty quarterly_income then none
    else
      match findRevenueRow quarterly_income with
      | none => none
      | some lbl =>
        let revs := sortedRowVals quarterly_income lbl
        if revs.length ≥ 4 then
          safeGrowth (getOpt revs (revs.length - 1)) (getOpt revs (revs.length - 4))
        else none
  let revenue_score := scoreFromGrowth revenue_growth settings.N_REVENUE_GROWTH_TARGET
  let proximity_score : ℚ :=
    match proximity_to_high with
    | none => 0
    | some p =>
      if p > 0 then
        if p ≥ 98/100 then 1
        else if p ≥ 90/100 then (p - 90/100) / (98/100 - 90/100)
        else if p ≥ 75/100 then (p - 75/100) / (90/100 - 75/100) * (3/10)
        else 0
      else 0
  (clip (rw * revenue_score + pw * proximity_score) 0 1, revenue_growth)

/-! ## Price bars (normalized OHLCV rows)

`normalize_price_dataframe` / `extract_float_series` flatten the yfinance
frame into plain float columns; the model starts from the already-normalized
bars, ordered ascending by date. -/

structure Bar where
  op : ℚ
  hi : ℚ
  lo : ℚ
  close : ℚ
  vol : ℚ
deriving Repr, DecidableEq

/-! ## S — supply and demand (src/core/canslim/s_supply_demand.py) -/

/-- Translation of `_score_float_supply`: five discrete bands over shares
outstanding, neutral `0.5` when unknown or non-positive. -/
def scoreFloatSupply (shares_outstanding : Option ℚ) : ℚ :=
  match shares_outstanding with
  | none => 1/2
  | some s =>
    if s ≤ 0 then 1/2
    else
      let shares_millions := s / 1000000
      if shares_millions < 50 then 1
      else if shares_millions < 200 then 85/100
      else if shares_millions < 500 then 65/100
      else if shares_millions < 1000 then 4/10
      else 2/10

/-- Translation of `_detect_volume_surge`. -/
def detectVolumeSurge (recent_volume avg_volume surge_threshold : ℚ) : Bool × ℚ :=
  if avg_volume = 0 then (false, 0)
  else
    let vr := recent_volume / avg_volume
    (decide (vr ≥ surge_threshold), vr)

/-- Translation of `_detect_breakout`. -/
def detectBreakout (current_price high_52week proximity_threshold : ℚ) : Bool × ℚ :=
  if high_52week = 0 then (false, 0)
  else
    let proximity := current_price / high_52week
    (decide (proximity ≥ proximity_threshold), proximity)

/-- Translation of `_calculate_up_down_volume_ratio`: average up-day volume
over average down-day volume on the trailing window, with the source's `0` /
`1` fallbacks for absent up/down days, capped at `3.0` (and `2.0` when the
down-day average is zero).  The first bar carries no diff and joins neither
mask. -/
def upDownVolumeRat (bars : List Bar) (lookback : Nat := 50) : ℚ :=
  let lb := if bars.length < lookback then bars.length else lookback
  let recent := lastN bars lb
  let closes := recent.map (fun b => b.close)
  let vols := recent.map (fun b => b.vol)
  let changes := List.zipWith (fun prev cur => cur - prev) closes (closes.drop 1)
  let pairs := changes.zip (vols.drop 1)
  let up_vols := (pairs.filter (fun p => decide (p.1 > 0))).map (fun p => p.2)
  let down_vols := (pairs.filter (fun p => decide (p.1 < 0))).map (fun p => p.2)
  let up_volume := if up_vols.isEmpty then 0 else listMean up_vols
  let down_volume := if down_vols.isEmpty then 1 else listMean down_vols
  if down_volume = 0 then 2
  else min (up_volume / down_volume) 3

/-- Details of a detected power earnings gap (`gap_details` dict). -/
structure GapDetails where
  gap_size : ℚ
  volume_rat : ℚ
  gap_price : ℚ
  days_ago : Nat
deriving Repr, DecidableEq

/-- Scan step of `_detect_power_earnings_gap`: walk consecutive bar pairs of
the recent window looking for the first qualifying gap-up; `i` is the current
position (index of `cur` within the window), `total` the window length. -/
def powerGapScan (avg_volume gap_threshold volume_threshold : ℚ) (total : Nat) :
    Nat → Bar → List Bar → Bool × Option GapDetails
  | _, _, [] => (false, none)
  | i, prev, cur :: rest =>
    let gap_size := (cur.lo - prev.hi) / prev.close
    if gap_size ≥ gap_threshold ∧ cur.vol / avg_volume ≥ volume_threshold then
      (true, some ⟨gap_size, cur.vol / avg_volume, cur.op, total - i - 1⟩)
    else powerGapScan avg_volume gap_threshold volume_threshold total (i + 1) cur rest

/-- Translation of `_detect_power_earnings_gap`: needs `lookback + 50` bars,
baselines volume on the 50 bars preceding the lookback window, then scans the
last `lookback+1` bars for a gap-up (`low > previous high` by the threshold)
on volume at least `volume_threshold` times the baseline. -/
def detectPowerEarningsGap (price_history : List Bar) (lookback_days : Nat := 10)
    (gap_threshold : ℚ := 2/100) (volume_threshold : ℚ := 15/10) :
    Bool × Option GapDetails :=
  if price_history.length < lookback_days + 50 then (false, none)
  else
    let recent := lastN price_history (lookback_days + 1)
    let baseline := ((price_history.drop (price_history.length - (lookback_days + 50))).take 50).map
      (fun b => b.vol)
    let avg_volume := listMean baseline
    if avg_volume = 0 then (false, none)
    else
      match recent with
      | [] => (false, none)
      | b0 :: rest =>
        powerGapScan avg_volume gap_threshold volume_threshold recent.length 1 b0 rest

/-- Metrics dict assembled by `evaluate_s` (reporting only). -/
structure SMetrics where
  recent_volume : ℚ
  avg_volume_50 : ℚ
  volume_rat : ℚ
  has_volume_surge : Bool
  proximity_to_high : ℚ
  is_breakout : Bool
  has_power_gap : Bool
  power_gap_details : Option GapDetails
  up_down_volume_rat : ℚ
  shares_outstanding : Option ℚ
  float_score : ℚ
deriving Repr, DecidableEq

/-- Translation of `evaluate_s`.  Returns `(score, metrics)`. -/
def evaluate_s (price_history : List Bar) (avg_volume_50 current_price high_52week : ℚ)
    (shares_outstanding : Option ℚ)
    (surgeThreshOpt breakoutProxOpt : Option ℚ) (gapLookbackOpt : Option Nat) :
    ℚ × SMetrics :=
  let s_volume_surge_threshold := resolveParam surgeThreshOpt settings.S_VOLUME_SURGE_THRESHOLD
  let s_breakout_proximity := resolveParam breakoutProxOpt settings.S_BREAKOUT_PROXIMITY
  let s_power_gap_lookback := resolveNatParam gapLookbackOpt settings.S_POWER_GAP_LOOKBACK
  let recent_volume :=
    match price_history.getLast? with
    | some b => b.vol
    | none => 0
  let float_score := scoreFloatSupply shares_outstanding
  let up_down_rat := upDownVolumeRat price_history
  let ud_score : ℚ :=
    if up_down_rat ≥ 15/10 then 1
    else if up_down_rat ≥ 1 then (up_down_rat - 1) / (5/10)
    else max (up_down_rat - 5/10) 0 / (5/10) * (3/10)
  let surge := detectVolumeSurge recent_volume avg_volume_50 s_volume_surge_threshold
  let breakout := detectBreakout current_price high_52week s_breakout_proximity
  let volume_score := if avg_volume_50 > 0 then min (surge.2 / s_volume_surge_threshold) 1 else 0
  let breakout_score : ℚ :=
    if breakout.1 then 1
    else max ((breakout.2 - 85/100) / (s_breakout_proximity - 85/100)) 0
  let surge_breakout_score := 5/10 * volume_score + 5/10 * breakout_score
  let gap := detectPowerEarningsGap price_history s_power_gap_lookback
  let power_gap_score : ℚ := if gap.1 then 1 else 0
  let score := clip
    (settings.S_FLOAT_WEIGHT * float_score
      + settings.S_UP_DOWN_VOL_WEIGHT * ud_score
      + settings.S_SURGE_BREAKOUT_WEIGHT * surge_breakout_score
      + settings.S_POWER_GAP_WEIGHT * power_gap_score) 0 1
  (score,
    { recent_volume := recent_volume
      avg_volume_50 := avg_volume_50
      volume_rat := surge.2
      has_volume_surge := surge.1
      proximity_to_high := breakout.2
      is_breakout := breakout.1
      has_power_gap := gap.1
      power_gap_details := gap.2
      up_down_volume_rat := up_down_rat
      shares_outstanding := shares_outstanding
      float_score := float_score })

/-! ## M — market direction (src/core/canslim/m_market_direction.py) -/

/-- Translation of the `MarketTrend` dataclass; the `indicators` dict is a
string-keyed association list. -/
structure MarketTrend where
  symbol : String
  score : ℚ
  is_bullish : Bool
  latest_close : Option ℚ
  indicators : List (String × ℚ)
  distribution_days : Nat := 0
  follow_through : Bool := false
deriving Repr, DecidableEq

/-- Accumulating step of `Series.ewm(span).mean()` with pandas' default
`adjust=True`: carries the decayed weighted numerator and weight sum. -/
def ewmGo (β : ℚ) : ℚ → ℚ → List ℚ → List ℚ
  | _, _, [] => []
  | num, den, x :: xs =>
    let num2 := β * num + x
    let den2 := β * den + 1
    num2 / den2 :: ewmGo β num2 den2 xs

/-- Exponentially weighted mean with the span parametrization,
`closes.ewm(span=n).mean()`. -/
def ewmMean (span : Nat) (xs : List ℚ) : List ℚ :=
  let α : ℚ := 2 / ((span : ℚ) + 1)
  ewmGo (1 - α) 0 0 xs

/-- Pairwise walk of `_count_distribution_days`: a day counts when the close
declines by at least `min_decline` relative to the prior close on volume
above the prior day's. -/
def distDays (min_decline : ℚ) : List ℚ → List ℚ → Nat
  | c0 :: c1 :: cs, v0 :: v1 :: vs =>
    (if (c1 - c0) / c0 ≤ -min_decline ∧ v1 > v0 then 1 else 0)
      + distDays min_decline (c1 :: cs) (v1 :: vs)
  | _, _ => 0

/-- Translation of `_count_distribution_days`: shrink the lookback to the
available history, then count qualifying declines over the trailing
`lookback + 1` bars. -/
def countDistributionDays (closes volumes : List ℚ) (lookback : Nat := 25)
    (min_decline : ℚ := 2/1000) : Nat :=
  let lb := if closes.length < lookback + 1 then closes.length - 1 else lookback
  distDays min_decline (lastN closes (lb + 1)) (lastN volumes (lb + 1))

/-- Rally-state walk of `_detect_follow_through_day`: carries the current
rally-day count and whether a rally attempt is in progress.  A down day only
resets the attempt when the decline exceeds 1%. -/
def ftdScan (min_rally_pct : ℚ) (min_rally_day : Nat) :
    Nat → Bool → List ℚ → List ℚ → Bool
  | cnt, inR, c0 :: c1 :: cs, v0 :: v1 :: vs =>
    let daily_change := (c1 - c0) / c0
    if daily_change > 0 then
      let cnt2 := if inR then cnt + 1 else 1
      if cnt2 ≥ min_rally_day ∧ daily_change ≥ min_rally_pct ∧ v1 > v0 then true
      else ftdScan min_rally_pct min_rally_day cnt2 true (c1 :: cs) (v1 :: vs)
    else
      if daily_change < -(1/100) then
        ftdScan min_rally_pct min_rally_day 0 false (c1 :: cs) (v1 :: vs)
      else ftdScan min_rally_pct min_rally_day cnt inR (c1 :: cs) (v1 :: vs)
  | _, _, _, _ => false

/-- Translation of `_detect_follow_through_day`. -/
def detectFollowThroughDay (closes volumes : List ℚ) (min_rally_pct : ℚ := 15/1000)
    (min_rally_day : Nat := 4) (lookback : Nat := 30) : Bool :=
  if closes.length < lookback then false
  else ftdScan min_rally_pct min_rally_day 0 false (lastN closes lookback)
    (lastN volumes lookback)

/-- Translation of `evaluate_m`.  The yfinance download of the benchmark
history is modelled by the `data` argument (already-sliced daily bars); with
fewer than 50 bars (including a failed/empty download) the fixed
neutral-bearish snapshot is returned before any indicator is computed. -/
def evaluate_m (benchmark_symbol : String) (data : List Bar)
    (p200WOpt alignWOpt rise50WOpt p21WOpt bullThreshOpt : Option ℚ)
    (risingLookbackOpt : Option Nat) : MarketTrend :=
  let price_above_200_weight := resolveParam p200WOpt settings.M_PRICE_ABOVE_200EMA_WEIGHT
  let ema_alignment_weight := resolveParam alignWOpt settings.M_EMA_ALIGNMENT_WEIGHT
  let rising_50ema_weight := resolveParam rise50WOpt settings.M_50EMA_RISING_WEIGHT
  let price_above_21_weight := resolveParam p21WOpt settings.M_PRICE_ABOVE_21EMA_WEIGHT
  let bullish_threshold := resolveParam bullThreshOpt settings.M_BULLISH_THRESHOLD
  let rising_lookback := resolveNatParam risingLookbackOpt settings.M_50EMA_RISING_LOOKBACK
  if data.length < 50 then
    { symbol := benchmark_symbol
      score := 4/10
      is_bullish := false
      latest_close := none
      indicators := [] }
  else
    let closes := data.map (fun b => b.close)
    let volumes := data.map (fun b => b.vol)
    let ema_21 := ewmMean 21 closes
    let ema_50 := ewmMean 50 closes
    let ema_200 := ewmMean 200 closes
    let latest_close := closes.getLastD 0
    let latest_ema_21 := ema_21.getLastD 0
    let latest_ema_50 := ema_50.getLastD 0
    let latest_ema_200 := ema_200.getLastD 0
    let dist_days := countDistributionDays closes volumes
      settings.M_DISTRIBUTION_LOOKBACK settings.M_DISTRIBUTION_MIN_DECLINE
    let dist_score := max (1 - (dist_days : ℚ) / settings.M_MAX_DISTRIBUTION_DAYS) 0
    let has_follow_through := detectFollowThroughDay closes volumes
      settings.M_FOLLOW_THROUGH_MIN_PCT settings.M_FOLLOW_THROUGH_MIN_DAY
    let ftd_score : ℚ := if has_follow_through then 1 else 0
    let trend1 : ℚ := if latest_close > latest_ema_200 then price_above_200_weight else 0
    let trend2 : ℚ :=
      if latest_ema_21 > latest_ema_50 ∧ latest_ema_50 > latest_ema_200 then
        ema_alignment_weight
      else 0
    let trend3 : ℚ :=
      if ema_50.length > rising_lookback then
        let ema_50_lookback := ema_50.getD (ema_50.length - rising_lookback) 0
        if latest_ema_50 > ema_50_lookback then rising_50ema_weight else 0
      else 0
    let trend4 : ℚ := if latest_close > latest_ema_21 then price_above_21_weight else 0
    let trend_score := trend1 + trend2 + trend3 + trend4
    let combined_score := clip
      (settings.M_DISTRIBUTION_WEIGHT * dist_score
        + settings.M_FOLLOW_THROUGH_WEIGHT * ftd_score
        + (1 - settings.M_DISTRIBUTION_WEIGHT - settings.M_FOLLOW_THROUGH_WEIGHT)
          * trend_score) 0 1
    { symbol := benchmark_symbol
      score := combined_score
      is_bullish := decide (combined_score ≥ bullish_threshold)
      latest_close := some latest_close
      indicators := [("ema_21", latest_ema_21), ("ema_50", latest_ema_50),
        ("ema_200", latest_ema_200)]
      distribution_days := dist_days
      follow_through := has_follow_through }

/-! ## Relative-strength ranking (src/core/momentum_analysis.py) -/

/-- Translation of `get_sp500_tickers`: the network fetch is modelled by the
`fetched` argument; on total failure (`none`, the `except` branch) the fixed
five-ticker fallback list is returned. -/
def get_sp500_tickers (fetched : Option (List String)) : List String :=
  match fetched with
  | some tickers => tickers.map (fun t => String.mk (t.toList.map
      (fun c => if c = '.' then '-' else c)))
  | none => ["AAPL", "MSFT", "GOOGL", "AMZN", "NVDA"]

/-- Translation of `calculate_weighted_performance`: four discrete
quarter-over-quarter returns off the last bar (65 trading days per quarter,
hard-coded in the function), weighted 0.40/0.20/0.20/0.20; `none` when fewer
than 260 bars exist or any quarter-boundary price is zero. -/
def calculate_weighted_performance (s : List ℚ) : Option ℚ :=
  if s.length < 4 * 65 then none
  else
    let n := s.length
    let curr := s.getD (n - 1) 0
    let q1 := s.getD (n - 65) 0
    let q2 := s.getD (n - 2 * 65) 0
    let q3 := s.getD (n - 3 * 65) 0
    let q4 := s.getD (n - 4 * 65) 0
    if q1 = 0 ∨ q2 = 0 ∨ q3 = 0 ∨ q4 = 0 then none
    else some (40/100 * (curr / q1 - 1) + 20/100 * (q1 / q2 - 1)
      + 20/100 * (q2 / q3 - 1) + 20/100 * (q3 / q4 - 1))

/-- Number of elements of `xs` strictly below `x`. -/
def countLt (xs : List ℚ) (x : ℚ) : Nat :=
  (xs.filter (fun y => decide (y < x))).length

/-- Number of elements of `xs` equal to `x`. -/
def countEq (xs : List ℚ) (x : ℚ) : Nat :=
  (xs.filter (fun y => decide (y = x))).length

/-- Percentile rank with average-rank ties, `Series.rank(pct=True)`: the mean
of the 1-based positions the tied block occupies, divided by the length. -/
def avgRankPct (xs : List ℚ) (x : ℚ) : ℚ :=
  ((countLt xs x : ℚ) + ((countEq xs x : ℚ) + 1) / 2) / (xs.length : ℚ)

/-- Row of the RS-score DataFrame (`Ticker`, `Weighted_Perf`, `RS_Score`). -/
structure RSRow where
  ticker : String
  weighted_perf : ℚ
  rs_score : ℚ
deriving Repr, DecidableEq

/-- The ranking step of `calculate_rs_scores_for_tickers` (lines 123–134):
drop series whose weighted performance is unavailable (`rs_df.dropna()`),
then attach `RS_Score = rank(pct=True) * 98 + 1`. -/
def rankRows (panel : List (String × List ℚ)) : List RSRow :=
  let perfRows := panel.filterMap (fun p =>
    (calculate_weighted_performance p.2).map (fun w => (p.1, w)))
  let perfs := perfRows.map (fun p => p.2)
  perfRows.map (fun p => ⟨p.1, p.2, avgRankPct perfs p.2 * 98 + 1⟩)

/-- Insertion step for the descending sort on `RS_Score`. -/
def insertDescRs (r : RSRow) : List RSRow → List RSRow
  | [] => [r]
  | q :: qs => if r.rs_score ≥ q.rs_score then r :: q :: qs else q :: insertDescRs r qs

/-- Translation of `rs_df.sort_values(by='RS_Score', ascending=False)`. -/
def sortDescRs (rows : List RSRow) : List RSRow :=
  rows.foldr insertDescRs []

/-- Translation of `calculate_rs_scores_for_tickers`, lines 55–142.  The
same-day CSV cache is modelled by `cache`; the batched yfinance download,
forward-fill and all-NaN column drop are modelled by `panel`, the resolved
per-ticker close series.  `some frame` models `return frame`; `none` models
Python's implicit `None`.  On the fully successful path the source ranks,
sorts and writes the cache file but reaches the end of the function body
without a `return` statement, so the caller receives `None`. -/
def calculate_rs_scores_for_tickers (cache : Option (List RSRow))
    (panel : List (String × List ℚ)) : Option (List RSRow) :=
  match cache with
  | some cached => some cached
  | none =>
    if panel.isEmpty then some []
    else
      let rs_df := rankRows panel
      if rs_df.isEmpty then some []
      else
        let _sorted := sortDescRs rs_df
        none

/-- Translation of `calculate_rs_momentum`: `RS_Score` of the first row whose
`Ticker` equals `symbol`; the `IndexError`/`KeyError` raised for an absent
symbol (or a frame without the columns) is caught and mapped to `0.0`. -/
def calculate_rs_momentum (symbol : String) (rs_scores_df : List RSRow) : ℚ :=
  match rs_scores_df.find? (fun r => r.ticker == symbol) with
  | some r => r.rs_score
  | none => 0

/-! ## L — leader or laggard (src/core/canslim/l_leader_laggard.py) -/

/-- Translation of `evaluate_l`: the squared-percentile power curve over the
RS score, clipped to `[0,1]`. -/
def evaluate_l (symbol : String) (rs_scores_df : List RSRow) : ℚ × ℚ :=
  let rs_score := calculate_rs_momentum symbol rs_scores_df
  (clip ((rs_score / 100) ^ 2) 0 1, rs_score)

/-! ## Composite scorer (src/core/canslim/core.py, lines 191–224) -/

/-- Translation of the weighted-scoring block of `evaluate_canslim`: full
seven-weight path when fundamentals are available, otherwise the five
technical weights renormalized by their sum, both scaled to 0–100. -/
def canslimTotalScore (score_c score_a score_n score_s score_l score_i score_m : ℚ)
    (has_fundamentals : Bool) : ℚ :=
  if has_fundamentals then
    (settings.CANSLIM_WEIGHT_C * score_c
      + settings.CANSLIM_WEIGHT_A * score_a
      + settings.CANSLIM_WEIGHT_N * score_n
      + settings.CANSLIM_WEIGHT_S * score_s
      + settings.CANSLIM_WEIGHT_L * score_l
      + settings.CANSLIM_WEIGHT_I * score_i
      + settings.CANSLIM_WEIGHT_M * score_m) * 100
  else
    let tech_weight_sum := settings.CANSLIM_WEIGHT_N + settings.CANSLIM_WEIGHT_S
      + settings.CANSLIM_WEIGHT_L + settings.CANSLIM_WEIGHT_I + settings.CANSLIM_WEIGHT_M
    ((settings.CANSLIM_WEIGHT_N / tech_weight_sum) * score_n
      + (settings.CANSLIM_WEIGHT_S / tech_weight_sum) * score_s
      + (settings.CANSLIM_WEIGHT_L / tech_weight_sum) * score_l
      + (settings.CANSLIM_WEIGHT_I / tech_weight_sum) * score_i
      + (settings.CANSLIM_WEIGHT_M / tech_weight_sum) * score_m) * 100

/-! ## Full CANSLIM evaluation (src/core/canslim/core.py) -/

/-- Per-ticker data resolved by the yfinance fetches of `evaluate_canslim`
(income statements, balance sheet, daily price history, `fast_info` /
`info` fields). -/
structure TickerData where
  quarterly_income : StatementFrame
  annual_income : StatementFrame
  balance_sheet : StatementFrame
  price_history : List Bar
  shares_outstanding : Option ℚ
  held_percent_institutions : Option ℚ
  num_institutional_holders : Option ℤ
deriving Repr, DecidableEq

/-- Component scores compiled by `evaluate_canslim` (the `scores` dict). -/
structure ComponentScores where
  c : ℚ
  a : ℚ
  n : ℚ
  s : ℚ
  l : ℚ
  i : ℚ
  m : ℚ
deriving Repr, DecidableEq

/-- Result dict of `evaluate_canslim` (scores, flattened metrics, composite
total, RS score, market trend). -/
structure CanslimResult where
  symbol : String
  scores : ComponentScores
  total_score : ℚ
  rs_score : ℚ
  market_trend : MarketTrend
  has_fundamentals : Bool
  current_growth : Option ℚ
  annual_growth : Option ℚ
  revenue_growth : Option ℚ
  roe : Option ℚ
  s_metrics : SMetrics
  proximity_to_high : ℚ
  avg_volume_50 : ℚ
  shares_outstanding : Option ℚ
deriving Repr, DecidableEq

/-- Translation of `evaluate_canslim` (src/core/canslim/core.py).  The data
fetches are modelled by `td` (per-ticker data) and `spy_data` (benchmark bars
for the `evaluate_m()` fallback when no market trend is supplied); a fetch
exception, which makes the source return `None` before any scoring, is outside
this model's scope.  With an empty price history or fewer than 30 daily bars
the function returns `none` and no component is evaluated. -/
def evaluate_canslim (symbol : String) (rs_scores_df : List RSRow)
    (market_trendOpt : Option MarketTrend) (spy_data : List Bar)
    (cTargetOpt aTargetOpt nRevWOpt nProxWOpt : Option ℚ)
    (td : TickerData) : Option CanslimResult :=
  let c_growth_target := resolveParam cTargetOpt settings.C_GROWTH_TARGET
  let a_growth_target := resolveParam aTargetOpt settings.A_GROWTH_TARGET
  let n_revenue_weight := resolveParam nRevWOpt settings.N_REVENUE_GROWTH_WEIGHT
  let n_proximity_weight := resolveParam nProxWOpt settings.N_PROXIMITY_TO_HIGH_WEIGHT
  let market_trend :=
    match market_trendOpt with
    | some mt => mt
    | none => evaluate_m "SPY" spy_data none none none none none none
  if td.price_history.length < 30 then none
  else
    let closes := td.price_history.map (fun b => b.close)
    let latest_close := closes.getLastD 0
    let high_52 := listMax closes
    let proximity_to_high := if high_52 = 0 then 0 else latest_close / high_52
    let volumes := td.price_history.map (fun b => b.vol)
    let avg_volume_50 := if volumes.isEmpty then 0 else listMean (lastN volumes 50)
    let cRes := evaluate_c td.quarterly_income (some c_growth_target)
    let aRes := evaluate_a td.annual_income (some a_growth_target) (some td.balance_sheet)
    let nRes := evaluate_n td.quarterly_income (some proximity_to_high)
      (some n_revenue_weight) (some n_proximity_weight)
    let sRes := evaluate_s td.price_history avg_volume_50 latest_close high_52
      td.shares_outstanding none none none
    let lRes := evaluate_l symbol rs_scores_df
    let score_i := evaluate_i td.held_percent_institutions
      td.num_institutional_holders none
    let score_m := market_trend.score
    let current_growth := cRes.2
    let annual_growth := aRes.2.1
    let has_fundamentals := current_growth.isSome || annual_growth.isSome
    let total_score := canslimTotalScore cRes.1 aRes.1 nRes.1 sRes.1 lRes.1
      score_i score_m has_fundamentals
    some
      { symbol := symbol
        scores := ⟨cRes.1, aRes.1, nRes.1, sRes.1, lRes.1, score_i, score_m⟩
        total_score := total_score
        rs_score := lRes.2
        market_trend := market_trend
        has_fundamentals := has_fundamentals
        current_growth := current_growth
        annual_growth := annual_growth
        revenue_growth := nRes.2
        roe := aRes.2.2
        s_metrics := sRes.2
        proximity_to_high := proximity_to_high
        avg_volume_50 := avg_volume_50
        shares_outstanding := td.shares_outstanding }

/-! ## Configuration loading (src/config/settings.py as a module)

Importing the settings module executes a flat sequence of constant
assignments; there is no validation code anywhere in the module (no assert,
no check function, no exception).  `SettingsConfig` collects the weight
groups, caps and targets; `loadSettings` is the load step. -/

structure SettingsConfig where
  canslim_weight_c : ℚ
  canslim_weight_a : ℚ
  canslim_weight_n : ℚ
  canslim_weight_s : ℚ
  canslim_weight_l : ℚ
  canslim_weight_i : ℚ
  canslim_weight_m : ℚ
  c_growth_weight : ℚ
  c_consistency_weight : ℚ
  c_acceleration_weight : ℚ
  a_growth_weight : ℚ
  a_consistency_weight : ℚ
  a_roe_weight : ℚ
  s_float_weight : ℚ
  s_up_down_vol_weight : ℚ
  s_surge_breakout_weight : ℚ
  s_power_gap_weight : ℚ
  i_level_weight : ℚ
  i_trend_weight : ℚ
  rs_q1_weight : ℚ
  rs_q2_weight : ℚ
  rs_q3_weight : ℚ
  rs_q4_weight : ℚ
  c_growth_target : ℚ
  a_growth_target : ℚ
  a_roe_target : ℚ
  n_revenue_growth_target : ℚ
  s_turnover_cap : ℚ
  i_institutional_cap : ℚ
  s_volume_surge_threshold : ℚ
  s_breakout_proximity : ℚ

/-- The values assigned by src/config/settings.py. -/
def defaultSettings : SettingsConfig where
  canslim_weight_c := 20/100
  canslim_weight_a := 15/100
  canslim_weight_n := 10/100
  canslim_weight_s := 10/100
  canslim_weight_l := 20/100
  canslim_weight_i := 10/100
  canslim_weight_m := 15/100
  c_growth_weight := 60/100
  c_consistency_weight := 20/100
  c_acceleration_weight := 20/100
  a_growth_weight := 50/100
  a_consistency_weight := 30/100
  a_roe_weight := 20/100
  s_float_weight := 25/100
  s_up_down_vol_weight := 25/100
  s_surge_breakout_weight := 30/100
  s_power_gap_weight := 20/100
  i_level_weight := 60/100
  i_trend_weight := 40/100
  rs_q1_weight := 40/100
  rs_q2_weight := 20/100
  rs_q3_weight := 20/100
  rs_q4_weight := 20/100
  c_growth_target := 25/100
  a_growth_target := 25/100
  a_roe_target := 17/100
  n_revenue_growth_target := 25/100
  s_turnover_cap := 1
  i_institutional_cap := 1
  s_volume_surge_threshold := 15/10
  s_breakout_proximity := 98/100

/-- Loading the configuration: the module body only assigns the values, so
every configuration is accepted unchanged — no branch of src/config/settings.py
can raise for out-of-range values. -/
def loadSettings (cfg : SettingsConfig) : Except String SettingsConfig :=
  Except.ok cfg

/-- Well-formedness condition stated by the specification: every weight group
sums to 1 and every cap/target is positive. -/
def settingsValid (cfg : SettingsConfig) : Bool :=
  decide (cfg.canslim_weight_c + cfg.canslim_weight_a + cfg.canslim_weight_n
      + cfg.canslim_weight_s + cfg.canslim_weight_l + cfg.canslim_weight_i
      + cfg.canslim_weight_m = 1)
    && decide (cfg.c_growth_weight + cfg.c_consistency_weight
      + cfg.c_acceleration_weight = 1)
    && decide (cfg.a_growth_weight + cfg.a_consistency_weight + cfg.a_roe_weight = 1)
    && decide (cfg.s_float_weight + cfg.s_up_down_vol_weight
      + cfg.s_surge_breakout_weight + cfg.s_power_gap_weight = 1)
    && decide (cfg.i_level_weight + cfg.i_trend_weight = 1)
    && decide (cfg.rs_q1_weight + cfg.rs_q2_weight + cfg.rs_q3_weight
      + cfg.rs_q4_weight = 1)
    && decide (0 < cfg.c_growth_target) && decide (0 < cfg.a_growth_target)
    && decide (0 < cfg.a_roe_target) && decide (0 < cfg.n_revenue_growth_target)
    && decide (0 < cfg.s_turnover_cap) && decide (0 < cfg.i_institutional_cap)
    && decide (0 < cfg.s_volume_surge_threshold)
    && decide (0 < cfg.s_breakout_proximity)

/-! ## Pullback entries (src/core/pullback_entries.py)

The function loads each omitted keyword argument from the settings module via
attribute access (`settings.NAME`).  The attribute tables below reproduce the
complete set of numeric module attributes actually assigned in
src/config/settings.py (split by Python type, `int` versus `float`), so a
`none` result models Python's `AttributeError`. -/

/-- Integer-typed module attributes of src/config/settings.py. -/
def settingsAttrNat (name : String) : Option Nat :=
  match name with
  | "MAX_WORKERS" => some 3
  | "CHUNK_SIZE" => some 50
  | "PRICE_HISTORY_BUFFER_DAYS" => some 120
  | "TICKER_CACHE_EXPIRY_HOURS" => some 24
  | "EMA_SHORT" => some 8
  | "EMA_LONG" => some 21
  | "EMA_MARKET_50" => some 50
  | "EMA_MARKET_200" => some 200
  | "RSI_PERIOD" => some 14
  | "MIN_RS_SCORE" => some 80
  | "MIN_CANSLIM_SCORE" => some 70
  | "A_MIN_YEARS_GROWTH" => some 3
  | "S_POWER_GAP_LOOKBACK" => some 10
  | "M_50EMA_RISING_LOOKBACK" => some 20
  | "M_DISTRIBUTION_LOOKBACK" => some 25
  | "M_MAX_DISTRIBUTION_DAYS" => some 5
  | "M_FOLLOW_THROUGH_MIN_DAY" => some 4
  | "RS_PERCENTILE_MIN" => some 1
  | "RS_PERCENTILE_MAX" => some 99
  | "RS_PERCENTILE_MULTIPLIER" => some 98
  | "TRADING_DAYS_PER_QUARTER" => some 65
  | "FINNHUB_MAX_STOCKS" => some 500
  | "HTTP_RETRY_TOTAL" => some 5
  | "HTTP_RETRY_BACKOFF" => some 2
  | "HTTP_MAX_WORKERS" => some 5
  | _ => none

/-- Float-typed module attributes of src/config/settings.py. -/
def settingsAttrRat (name : String) : Option ℚ :=
  match name with
  | "MIN_MARKET_CAP" => some 10000000000
  | "CANSLIM_WEIGHT_C" => some (20/100)
  | "CANSLIM_WEIGHT_A" => some (15/100)
  | "CANSLIM_WEIGHT_N" => some (10/100)
  | "CANSLIM_WEIGHT_S" => some (10/100)
  | "CANSLIM_WEIGHT_L" => some (20/100)
  | "CANSLIM_WEIGHT_I" => some (10/100)
  | "CANSLIM_WEIGHT_M" => some (15/100)
  | "PEG_COMPOSITE_BONUS" => some 10
  | "C_GROWTH_TARGET" => some (25/100)
  | "C_GROWTH_WEIGHT" => some (60/100)
  | "C_CONSISTENCY_WEIGHT" => some (20/100)
  | "C_ACCELERATION_WEIGHT" => some (20/100)
  | "C_IPO_DATA_DISCOUNT" => some (85/100)
  | "A_GROWTH_TARGET" => some (25/100)
  | "A_ROE_TARGET" => some (17/100)
  | "A_GROWTH_WEIGHT" => some (50/100)
  | "A_CONSISTENCY_WEIGHT" => some (30/100)
  | "A_ROE_WEIGHT" => some (20/100)
  | "A_IPO_DATA_DISCOUNT" => some (80/100)
  | "N_REVENUE_GROWTH_WEIGHT" => some (50/100)
  | "N_PROXIMITY_TO_HIGH_WEIGHT" => some (50/100)
  | "N_REVENUE_GROWTH_TARGET" => some (25/100)
  | "S_VOLUME_SURGE_THRESHOLD" => some (15/10)
  | "S_BREAKOUT_PROXIMITY" => some (98/100)
  | "S_TURNOVER_CAP" => some 1
  | "S_FLOAT_WEIGHT" => some (25/100)
  | "S_UP_DOWN_VOL_WEIGHT" => some (25/100)
  | "S_SURGE_BREAKOUT_WEIGHT" => some (30/100)
  | "S_POWER_GAP_WEIGHT" => some (20/100)
  | "I_INSTITUTIONAL_CAP" => some 1
  | "I_LEVEL_WEIGHT" => some (60/100)
  | "I_TREND_WEIGHT" => some (40/100)
  | "M_PRICE_ABOVE_200EMA_WEIGHT" => some (45/100)
  | "M_EMA_ALIGNMENT_WEIGHT" => some (25/100)
  | "M_50EMA_RISING_WEIGHT" => some (20/100)
  | "M_PRICE_ABOVE_21EMA_WEIGHT" => some (10/100)
  | "M_BULLISH_THRESHOLD" => some (6/10)
  | "M_DISTRIBUTION_MIN_DECLINE" => some (2/1000)
  | "M_FOLLOW_THROUGH_MIN_PCT" => some (15/1000)
  | "M_DISTRIBUTION_WEIGHT" => some (30/100)
  | "M_FOLLOW_THROUGH_WEIGHT" => some (15/100)
  | "RS_Q1_WEIGHT" => some (40/100)
  | "RS_Q2_WEIGHT" => some (20/100)
  | "RS_Q3_WEIGHT" => some (20/100)
  | "RS_Q4_WEIGHT" => some (20/100)
  | _ => none

/-- Attribute access `settings.name` for a float-valued setting: raises
`AttributeError` when the module does not define the name. -/
def lookupRatAttr (name : String) : Except String ℚ :=
  match settingsAttrRat name with
  | some v => Except.ok v
  | none => Except.error ("AttributeError: " ++ name)

/-- Attribute access `settings.name` for an int-valued setting. -/
def lookupNatAttr (name : String) : Except String Nat :=
  match settingsAttrNat name with
  | some v => Except.ok v
  | none => Except.error ("AttributeError: " ++ name)

/-- Python's `param or settings.name` for a float keyword argument: `None`
and `0` both trigger the attribute access. -/
def resolveRatSetting (x : Option ℚ) (name : String) : Except String ℚ :=
  match x with
  | some v => if v = 0 then lookupRatAttr name else Except.ok v
  | none => lookupRatAttr name

/-- Python's `param or settings.name` for an int keyword argument. -/
def resolveNatSetting (x : Option Nat) (name : String) : Except String Nat :=
  match x with
  | some v => if v = 0 then lookupNatAttr name else Except.ok v
  | none => lookupNatAttr name

/-- Indicator-enriched daily row consumed by `identify_pullback_entries`
(columns `Close`, `RSI`, `Distance_8EMA`, `Above_8EMA`, `Distance_21EMA`,
`Above_21EMA`, indexed by date). -/
structure PullbackRow where
  date : Nat
  close : ℚ
  rsi : ℚ
  dist8 : ℚ
  above8 : Bool
  dist21 : ℚ
  above21 : Bool
deriving Repr, DecidableEq

/-- Placeholder row for the total `getD` accessor (never read on the guarded
index range). -/
def dfltPullbackRow : PullbackRow :=
  ⟨0, 0, 0, 0, false, 0, false⟩

/-- Signal record appended by `identify_pullback_entries`. -/
structure PullbackSignal where
  date : Nat
  close : ℚ
  signals : List String
  rsi : ℚ
  distance_8ema : ℚ
  distance_21ema : ℚ
deriving Repr, DecidableEq

/-- Body of `identify_pullback_entries` after parameter resolution: scan each
bar of the trailing `lookback + 5` window (skipping the first `lookback`
context bars) for the three non-exclusive setups. -/
def pullbackBody (df : List PullbackRow) (lookback_days : Nat)
    (tolerance_8ema tolerance_21ema min_adherence_8ema min_adherence_21ema : ℚ)
    (reclaim_lookback : Nat) : List PullbackSignal :=
  if df.length < lookback_days + 5 then []
  else
    let recent := lastN df (lookback_days + 5)
    (List.range recent.length).filterMap (fun idx =>
      if idx < lookback_days then none
      else
        let cur := recent.getD idx dfltPullbackRow
        let history := (recent.drop (idx - lookback_days)).take lookback_days
        let hist8 := history.map (fun r => r.above8)
        let prev_above_8ema := if hist8.isEmpty then 0 else boolMean hist8
        let sig8 := decide (|cur.dist8| < tolerance_8ema) && cur.above8
          && decide (prev_above_8ema > min_adherence_8ema)
        let hist21 := history.map (fun r => r.above21)
        let prev_above_21ema := if hist21.isEmpty then 0 else boolMean hist21
        let sig21 := decide (|cur.dist21| < tolerance_21ema) && cur.above21
          && decide (prev_above_21ema > min_adherence_21ema)
        let tail8 := lastN hist8 reclaim_lookback
        let broke_8ema := !tail8.isEmpty && tail8.any (fun b => !b)
        let tail21 := lastN hist21 reclaim_lookback
        let held_21ema := !tail21.isEmpty && tail21.all id
        let sigReclaim := broke_8ema && held_21ema && cur.above8
        let names := (if sig8 then ["8EMA_Retest"] else [])
          ++ (if sig21 then ["21EMA_Retest"] else [])
          ++ (if sigReclaim then ["8EMA_Reclaim"] else [])
        if names.isEmpty then none
        else some ⟨cur.date, cur.close, names, cur.rsi, cur.dist8, cur.dist21⟩)

/-- Translation of `identify_pullback_entries`: each omitted (or falsy)
keyword argument falls back to a `settings` attribute, in source order
(lines 15–20); the first undefined attribute aborts the call with
`AttributeError` before the body runs. -/
def identify_pullback_entries (df : List PullbackRow)
    (lookbackOpt : Option Nat) (tol8Opt tol21Opt adh8Opt adh21Opt : Option ℚ)
    (reclaimOpt : Option Nat) : Except String (List PullbackSignal) := do
  let lookback_days ← resolveNatSetting lookbackOpt "PULLBACK_LOOKBACK_DAYS"
  let tolerance_8ema ← resolveRatSetting tol8Opt "PULLBACK_8EMA_TOLERANCE"
  let tolerance_21ema ← resolveRatSetting tol21Opt "PULLBACK_21EMA_TOLERANCE"
  let min_adherence_8ema ← resolveRatSetting adh8Opt "MIN_ADHERENCE_8EMA"
  let min_adherence_21ema ← resolveRatSetting adh21Opt "MIN_ADHERENCE_21EMA"
  let reclaim_lookback ← resolveNatSetting reclaimOpt "RECLAIM_LOOKBACK_DAYS"
  pure (pullbackBody df lookback_days tolerance_8ema tolerance_21ema
    min_adherence_8ema min_adherence_21ema reclaim_lookback)

/-! ## Concrete fixtures used to evaluate the model on explicit inputs -/

/-- A one-ticker close panel with 260 flat bars: enough history for the RS
weighted-performance computation to succeed. -/
def panelW : List (String × List ℚ) :=
  [("AAA", List.replicate 260 1)]

/-- A second successful one-ticker panel (cache absent, download succeeded,
weighted performance defined). -/
def panelC1 : List (String × List ℚ) :=
  [("MSFT", List.replicate 260 2)]

/-- An annual income statement with exactly three annual periods (hence two
year-over-year growth observations) on a `Basic EPS` row. -/
def aFrame3 : StatementFrame :=
  ⟨[1, 2, 3], [("Basic EPS", [some 1, some 2, some 4])]⟩

/-- An annual income statement with four annual periods (three growth
observations) on a `Basic EPS` row. -/
def aFrame4 : StatementFrame :=
  ⟨[1, 2, 3, 4], [("Basic EPS", [some 1, some 2, some 4, some 8])]⟩

/-- The empty statement frame (no rows, no columns). -/
def emptyFrame : StatementFrame :=
  ⟨[], []⟩

/-- A configuration whose composite weights do not sum to 1 and whose C growth
target is non-positive. -/
def badSettings : SettingsConfig :=
  { defaultSettings with canslim_weight_c := 1/2, c_growth_target := -(25/100) }

/-- Ticker data with an empty price history. -/
def emptyTickerData : TickerData :=
  { quarterly_income := emptyFrame
    annual_income := emptyFrame
    balance_sheet := emptyFrame
    price_history := []
    shares_outstanding := none
    held_percent_institutions := none
    num_institutional_holders := none }

/-! ## Helper lemmas -/

theorem countLt_add_countEq_le (xs : List ℚ) (x : ℚ) :
    countLt xs x + countEq xs x ≤ xs.length := by
  induction xs with
  | nil => simp [countLt, countEq]
  | cons a t ih =>
    simp only [countLt, countEq, List.filter_cons, decide_eq_true_eq,
      List.length_cons] at *
    rcases lt_trichotomy a x with h | h | h
    · rw [if_pos h, if_neg (ne_of_lt h)]
      simp only [List.length_cons]
      omega
    · rw [if_neg (by rw [h]; exact lt_irrefl x), if_pos h]
      simp only [List.length_cons]
      omega
    · rw [if_neg (not_lt_of_gt h), if_neg (ne_of_gt h)]
      omega

theorem countEq_pos_of_mem {xs : List ℚ} {x : ℚ} (h : x ∈ xs) :
    1 ≤ countEq xs x := by
  induction xs with
  | nil => simp at h
  | cons a t ih =>
    rcases List.mem_cons.mp h with rfl | hmem
    · simp only [countEq, List.filter_cons, decide_eq_true_eq]
      simp only [if_true, eq_self_iff_true, List.length_cons]
      omega
    · by_cases h2 : a = x
      · simp only [countEq, List.filter_cons, decide_eq_true_eq]
        rw [if_pos h2]
        simp only [List.length_cons]
        omega
      · simp only [countEq, List.filter_cons, decide_eq_true_eq]
        rw [if_neg h2]
        exact ih hmem

theorem avgRankPct_pos {xs : List ℚ} {x : ℚ} (h : x ∈ xs) :
    0 < avgRankPct xs x := by
  have hn : 0 < xs.length := List.length_pos.mpr (List.ne_nil_of_mem h)
  have h1 := countEq_pos_of_mem h
  unfold avgRankPct
  apply div_pos
  · have hc0 : (0:ℚ) ≤ (countLt xs x : ℚ) := by positivity
    have hc1 : (0:ℚ) < ((countEq xs x : ℚ) + 1) / 2 := by positivity
    linarith
  · exact_mod_cast hn

theorem avgRankPct_le_one {xs : List ℚ} {x : ℚ} (h : x ∈ xs) :
    avgRankPct xs x ≤ 1 := by
  have hn : 0 < xs.length := List.length_pos.mpr (List.ne_nil_of_mem h)
  have h1 := countEq_pos_of_mem h
  have h2 := countLt_add_countEq_le xs x
  unfold avgRankPct
  rw [div_le_one (by exact_mod_cast hn)]
  have h3 : ((countEq xs x : ℚ) + 1) / 2 ≤ (countEq xs x : ℚ) := by
    rw [div_le_iff₀ (by norm_num)]
    have : (1:ℚ) ≤ (countEq xs x : ℚ) := by exact_mod_cast h1
    linarith
  have h4 : (countLt xs x : ℚ) + (countEq xs x : ℚ) ≤ (xs.length : ℚ) := by
    exact_mod_cast h2
  linarith

theorem mem_insertDescRs {r q : RSRow} {l : List RSRow} :
    r ∈ insertDescRs q l ↔ r = q ∨ r ∈ l := by
  induction l with
  | nil => simp [insertDescRs]
  | cons a t ih =>
    simp only [insertDescRs]
    split
    · simp [List.mem_cons]
    · simp only [List.mem_cons, ih]
      tauto

theorem mem_sortDescRs {r : RSRow} {l : List RSRow} :
    r ∈ sortDescRs l ↔ r ∈ l := by
  induction l with
  | nil => simp [sortDescRs]
  | cons a t ih =>
    simp only [sortDescRs, List.foldr_cons] at *
    rw [mem_insertDescRs, ih, List.mem_cons]

theorem annualGrowths_length (e : List (Option ℚ)) :
    (annualGrowths e).length = e.length - 1 := by
  simp [annualGrowths]

set_option maxRecDepth 8000

theorem calculate_weighted_performance_replicate (c : ℚ) (hc : ¬ (c = 0)) :
    calculate_weighted_performance (List.replicate 260 c) = some 0 := by
  have hget : ∀ i : Nat, i < 260 → (List.replicate 260 c).getD i 0 = c := by
    intro i hi
    rw [List.getD_eq_getElem?_getD, List.getElem?_replicate, if_pos hi]
    rfl
  have hlen : (List.replicate 260 c).length = 260 := by
    rw [List.length_replicate]
  have g0 := hget 259 (by norm_num)
  have g1 := hget 195 (by norm_num)
  have g2 := hget 130 (by norm_num)
  have g3 := hget 65 (by norm_num)
  simp only [calculate_weighted_performance, hlen]
  norm_num [g0, g1, g2, g3, hc, div_self hc]

theorem rankRows_replicate_const (t : String) (c : ℚ) (hc : ¬ (c = 0)) :
    rankRows [(t, List.replicate 260 c)] = [⟨t, 0, 99⟩] := by
  have h1 := calculate_weighted_performance_replicate c hc
  simp only [rankRows, List.filterMap_cons, List.filterMap_nil, h1,
    Option.map_some', List.map_cons, List.map_nil]
  norm_num [avgRankPct, countLt, countEq, List.filter]

/-! ## Claim theorems -/

/-- Claim C3: every component evaluator applied to empty/missing input returns
its documented default without raising: `evaluate_c` on an empty quarterly
frame returns `(0, none)`, `evaluate_a` on an empty annual frame returns
`(0, none, none)`, and `evaluate_i` with a missing institutional held fraction
returns the fixed low default `0.1`, which is not `0`. -/
theorem claim_C3_empty_input_defaults (f : StatementFrame) (h : frameEmpty f = true)
    (t1 t2 : Option ℚ) (bs : Option StatementFrame) (nh ph : Option ℤ) :
    evaluate_c f t1 = (0, none)
      ∧ evaluate_a f t2 bs = (0, none, none)
      ∧ evaluate_i none nh ph = 1/10 ∧ ((1 : ℚ)/10 ≠ 0) := by
  refine ⟨?_, ?_, rfl, by norm_num⟩
  · simp [evaluate_c, h]
  · simp [evaluate_a, h]

/-- Witness for C3 at the concrete empty frame and missing ownership data. -/
theorem claim_C3_witness :
    evaluate_c emptyFrame none = (0, none)
      ∧ evaluate_a emptyFrame none none = (0, none, none)
      ∧ evaluate_i none none none = 1/10 ∧ ((1 : ℚ)/10 ≠ 0) :=
  claim_C3_empty_input_defaults emptyFrame rfl none none none none none

/-- Claim C9: on a benchmark history with fewer than 50 bars (the empty
history included), `evaluate_m` returns the fixed neutral-bearish snapshot —
score `0.4`, not bullish, no latest close, empty indicator dict, zero
distribution days, no follow-through — and no EMA enters the result. -/
theorem claim_C9_short_benchmark (sym : String) (data : List Bar)
    (p1 p2 p3 p4 p5 : Option ℚ) (rl : Option Nat) (h : data.length < 50) :
    evaluate_m sym data p1 p2 p3 p4 p5 rl =
      { symbol := sym, score := 4/10, is_bullish := false, latest_close := none,
        indicators := [], distribution_days := 0, follow_through := false } := by
  simp [evaluate_m, h]

/-- Witness for C9 at the empty benchmark history. -/
theorem claim_C9_witness :
    evaluate_m "SPY" [] none none none none none none =
      { symbol := "SPY", score := 4/10, is_bullish := false, latest_close := none,
        indicators := [], distribution_days := 0, follow_through := false } :=
  claim_C9_short_benchmark "SPY" [] none none none none none none (by decide)

/-- Claim C10: on a symbol whose price history is empty or has fewer than 30
daily bars, `evaluate_canslim` returns `none` — no result record at all rather
than a degraded or zero-filled score. -/
theorem claim_C10_short_history (symbol : String) (df : List RSRow)
    (mt : Option MarketTrend) (spy : List Bar) (p1 p2 p3 p4 : Option ℚ)
    (td : TickerData) (h : td.price_history.length < 30) :
    evaluate_canslim symbol df mt spy p1 p2 p3 p4 td = none := by
  simp [evaluate_canslim, h]

/-- Witness for C10 at concrete ticker data with an empty price history. -/
theorem claim_C10_witness :
    evaluate_canslim "AAPL" [] none [] none none none none emptyTickerData = none :=
  claim_C10_short_history "AAPL" [] none [] none none none none emptyTickerData
    (by decide)

/-- Claim C6 (bug exhibit): calling `identify_pullback_entries` with every
optional parameter omitted aborts with an `AttributeError` on the very first
default lookup, for every input frame, because src/config/settings.py defines
none of the six pullback configuration names the function reads. -/
theorem claim_C6_defaults_attribute_error (df : List PullbackRow) :
    identify_pullback_entries df none none none none none none =
        Except.error "AttributeError: PULLBACK_LOOKBACK_DAYS"
      ∧ settingsAttrNat "PULLBACK_LOOKBACK_DAYS" = none
      ∧ settingsAttrRat "PULLBACK_8EMA_TOLERANCE" = none
      ∧ settingsAttrRat "PULLBACK_21EMA_TOLERANCE" = none
      ∧ settingsAttrRat "MIN_ADHERENCE_8EMA" = none
      ∧ settingsAttrRat "MIN_ADHERENCE_21EMA" = none
      ∧ settingsAttrNat "RECLAIM_LOOKBACK_DAYS" = none :=
  ⟨rfl, rfl, rfl, rfl, rfl, rfl, rfl⟩

/-- Claim C4: every row of the ranked RS frame (percentile rank with
average-rank ties, scaled by 98 and shifted by 1) carries an RS score in
`[1, 99]`; and for a symbol absent from the ranking frame,
`calculate_rs_momentum` returns exactly `0` — the failed lookup is caught,
not raised. -/
theorem claim_C4_rs_bounds (panel : List (String × List ℚ)) (r : RSRow)
    (hr : r ∈ sortDescRs (rankRows panel)) (symbol : String) (df : List RSRow)
    (habs : ∀ q ∈ df, q.ticker ≠ symbol) :
    (1 ≤ r.rs_score ∧ r.rs_score ≤ 99) ∧ calculate_rs_momentum symbol df = 0 := by
  constructor
  · have hr2 : r ∈ rankRows panel := mem_sortDescRs.mp hr
    simp only [rankRows] at hr2
    rcases List.mem_map.mp hr2 with ⟨p, hp, rfl⟩
    have hmem : p.2 ∈ (panel.filterMap (fun q =>
        (calculate_weighted_performance q.2).map (fun w => (q.1, w)))).map
        (fun q => q.2) := List.mem_map_of_mem _ hp
    have h1 := avgRankPct_pos hmem
    have h2 := avgRankPct_le_one hmem
    dsimp only
    constructor
    · nlinarith [h1]
    · nlinarith [h2]
  · have hfind : df.find? (fun q => q.ticker == symbol) = none := by
      rw [List.find?_eq_none]
      intro q hq
      simpa using habs q hq
    simp [calculate_rs_momentum, hfind]

/-- Witness for C4: the one-ticker panel `panelW` ranks its only symbol at RS
99, inside `[1, 99]`, and a lookup for a symbol absent from an empty frame
yields `0`. -/
theorem claim_C4_witness :
    ((1:ℚ) ≤ (⟨"AAA", 0, 99⟩ : RSRow).rs_score
        ∧ (⟨"AAA", 0, 99⟩ : RSRow).rs_score ≤ 99)
      ∧ calculate_rs_momentum "ZZZ" [] = 0 :=
  claim_C4_rs_bounds panelW ⟨"AAA", 0, 99⟩
    (by
      rw [mem_sortDescRs]
      have h2 : rankRows panelW = [⟨"AAA", 0, 99⟩] := by
        simpa [panelW] using rankRows_replicate_const "AAA" 1 (by norm_num)
      rw [h2]
      exact List.mem_singleton_self _)
    "ZZZ" [] (by simp)

/-- Claim C1 (bug exhibit): on total universe-resolution failure
`get_sp500_tickers` does degrade to the fixed five-ticker fallback list, but
on a fully successful ranking computation `calculate_rs_scores_for_tickers`
returns `None`: the source ranks, sorts and writes the cache and then falls
off the end of the function body with no `return` statement, so its caller
receives nothing instead of the computed DataFrame. -/
theorem claim_C1_missing_return :
    get_sp500_tickers none = ["AAPL", "MSFT", "GOOGL", "AMZN", "NVDA"]
      ∧ rankRows panelC1 ≠ []
      ∧ calculate_rs_scores_for_tickers none panelC1 = none := by
  have h2 : rankRows panelC1 = [⟨"MSFT", 0, 99⟩] := by
    simpa [panelC1] using rankRows_replicate_const "MSFT" 2 (by norm_num)
  refine ⟨rfl, ?_, ?_⟩
  · rw [h2]
    simp
  · have hne : panelC1.isEmpty = false := rfl
    simp [calculate_rs_scores_for_tickers, hne, h2]

/-- Claim C2: whenever the seven component sub-scores lie in `[0,1]` the
composite total score lies in `[0,100]` on either path; without fundamentals
the composite is exactly the N, S, L, I, M sub-scores blended with their
renormalized weights (`2/13, 2/13, 4/13, 2/13, 3/13` — C and A dropped, not
zero-scored) times 100; and both the full seven-weight set and the
renormalized five-weight set sum to 1 within `1e-9`. -/
theorem claim_C2_composite_bounds (c a n s l i m : ℚ)
    (hc0 : 0 ≤ c) (hc1 : c ≤ 1) (ha0 : 0 ≤ a) (ha1 : a ≤ 1)
    (hn0 : 0 ≤ n) (hn1 : n ≤ 1) (hs0 : 0 ≤ s) (hs1 : s ≤ 1)
    (hl0 : 0 ≤ l) (hl1 : l ≤ 1) (hi0 : 0 ≤ i) (hi1 : i ≤ 1)
    (hm0 : 0 ≤ m) (hm1 : m ≤ 1) (hf : Bool) :
    (0 ≤ canslimTotalScore c a n s l i m hf
        ∧ canslimTotalScore c a n s l i m hf ≤ 100)
      ∧ canslimTotalScore c a n s l i m false
          = (2/13 * n + 2/13 * s + 4/13 * l + 2/13 * i + 3/13 * m) * 100
      ∧ |settings.CANSLIM_WEIGHT_C + settings.CANSLIM_WEIGHT_A
          + settings.CANSLIM_WEIGHT_N + settings.CANSLIM_WEIGHT_S
          + settings.CANSLIM_WEIGHT_L + settings.CANSLIM_WEIGHT_I
          + settings.CANSLIM_WEIGHT_M - 1| ≤ 1/1000000000
      ∧ |settings.CANSLIM_WEIGHT_N
            / (settings.CANSLIM_WEIGHT_N + settings.CANSLIM_WEIGHT_S
              + settings.CANSLIM_WEIGHT_L + settings.CANSLIM_WEIGHT_I
              + settings.CANSLIM_WEIGHT_M)
          + settings.CANSLIM_WEIGHT_S
            / (settings.CANSLIM_WEIGHT_N + settings.CANSLIM_WEIGHT_S
              + settings.CANSLIM_WEIGHT_L + settings.CANSLIM_WEIGHT_I
              + settings.CANSLIM_WEIGHT_M)
          + settings.CANSLIM_WEIGHT_L
            / (settings.CANSLIM_WEIGHT_N + settings.CANSLIM_WEIGHT_S
              + settings.CANSLIM_WEIGHT_L + settings.CANSLIM_WEIGHT_I
              + settings.CANSLIM_WEIGHT_M)
          + settings.CANSLIM_WEIGHT_I
            / (settings.CANSLIM_WEIGHT_N + settings.CANSLIM_WEIGHT_S
              + settings.CANSLIM_WEIGHT_L + settings.CANSLIM_WEIGHT_I
              + settings.CANSLIM_WEIGHT_M)
          + settings.CANSLIM_WEIGHT_M
            / (settings.CANSLIM_WEIGHT_N + settings.CANSLIM_WEIGHT_S
              + settings.CANSLIM_WEIGHT_L + settings.CANSLIM_WEIGHT_I
              + settings.CANSLIM_WEIGHT_M)
          - 1| ≤ 1/1000000000 := by
  refine ⟨?_, ?_, ?_, ?_⟩
  · cases hf with
    | false =>
      simp only [canslimTotalScore, settings.CANSLIM_WEIGHT_N,
        settings.CANSLIM_WEIGHT_S, settings.CANSLIM_WEIGHT_L,
        settings.CANSLIM_WEIGHT_I, settings.CANSLIM_WEIGHT_M,
        Bool.false_eq_true, if_false]
      constructor <;> nlinarith
    | true =>
      simp only [canslimTotalScore, settings.CANSLIM_WEIGHT_C,
        settings.CANSLIM_WEIGHT_A, settings.CANSLIM_WEIGHT_N,
        settings.CANSLIM_WEIGHT_S, settings.CANSLIM_WEIGHT_L,
        settings.CANSLIM_WEIGHT_I, settings.CANSLIM_WEIGHT_M, if_true]
      constructor <;> nlinarith
  · simp only [canslimTotalScore, settings.CANSLIM_WEIGHT_N,
      settings.CANSLIM_WEIGHT_S, settings.CANSLIM_WEIGHT_L,
      settings.CANSLIM_WEIGHT_I, settings.CANSLIM_WEIGHT_M,
      Bool.false_eq_true, if_false]
    ring
  · simp only [settings.CANSLIM_WEIGHT_C, settings.CANSLIM_WEIGHT_A,
      settings.CANSLIM_WEIGHT_N, settings.CANSLIM_WEIGHT_S,
      settings.CANSLIM_WEIGHT_L, settings.CANSLIM_WEIGHT_I,
      settings.CANSLIM_WEIGHT_M]
    norm_num
  · simp only [settings.CANSLIM_WEIGHT_N, settings.CANSLIM_WEIGHT_S,
      settings.CANSLIM_WEIGHT_L, settings.CANSLIM_WEIGHT_I,
      settings.CANSLIM_WEIGHT_M]
    norm_num

/-- Witness for C2 with every sub-score `1/2` and fundamentals available. -/
theorem claim_C2_witness :
    ((0 : ℚ) ≤ canslimTotalScore (1/2) (1/2) (1/2) (1/2) (1/2) (1/2) (1/2) true
        ∧ canslimTotalScore (1/2) (1/2) (1/2) (1/2) (1/2) (1/2) (1/2) true ≤ 100)
      ∧ canslimTotalScore (1/2) (1/2) (1/2) (1/2) (1/2) (1/2) (1/2) false
          = (2/13 * (1/2) + 2/13 * (1/2) + 4/13 * (1/2) + 2/13 * (1/2)
            + 3/13 * (1/2)) * 100
      ∧ |settings.CANSLIM_WEIGHT_C + settings.CANSLIM_WEIGHT_A
          + settings.CANSLIM_WEIGHT_N + settings.CANSLIM_WEIGHT_S
          + settings.CANSLIM_WEIGHT_L + settings.CANSLIM_WEIGHT_I
          + settings.CANSLIM_WEIGHT_M - 1| ≤ 1/1000000000
      ∧ |settings.CANSLIM_WEIGHT_N
            / (settings.CANSLIM_WEIGHT_N + settings.CANSLIM_WEIGHT_S
              + settings.CANSLIM_WEIGHT_L + settings.CANSLIM_WEIGHT_I
              + settings.CANSLIM_WEIGHT_M)
          + settings.CANSLIM_WEIGHT_S
            / (settings.CANSLIM_WEIGHT_N + settings.CANSLIM_WEIGHT_S
              + settings.CANSLIM_WEIGHT_L + settings.CANSLIM_WEIGHT_I
              + settings.CANSLIM_WEIGHT_M)
          + settings.CANSLIM_WEIGHT_L
            / (settings.CANSLIM_WEIGHT_N + settings.CANSLIM_WEIGHT_S
              + settings.CANSLIM_WEIGHT_L + settings.CANSLIM_WEIGHT_I
              + settings.CANSLIM_WEIGHT_M)
          + settings.CANSLIM_WEIGHT_I
            / (settings.CANSLIM_WEIGHT_N + settings.CANSLIM_WEIGHT_S
              + settings.CANSLIM_WEIGHT_L + settings.CANSLIM_WEIGHT_I
              + settings.CANSLIM_WEIGHT_M)
          + settings.CANSLIM_WEIGHT_M
            / (settings.CANSLIM_WEIGHT_N + settings.CANSLIM_WEIGHT_S
              + settings.CANSLIM_WEIGHT_L + settings.CANSLIM_WEIGHT_I
              + settings.CANSLIM_WEIGHT_M)
          - 1| ≤ 1/1000000000 :=
  claim_C2_composite_bounds (1/2) (1/2) (1/2) (1/2) (1/2) (1/2) (1/2)
    (by norm_num) (by norm_num) (by norm_num) (by norm_num) (by norm_num)
    (by norm_num) (by norm_num) (by norm_num) (by norm_num) (by norm_num)
    (by norm_num) (by norm_num) (by norm_num) (by norm_num) true

/-- Claim C8 counterexample: the ownership-level curve is not flat on the
30–60% band — it scores `0.7` at 30% held and `0.85` at 45% held. -/
theorem claim_C8_counterexample :
    scoreOwnershipLevel (30/100) = 7/10 ∧ scoreOwnershipLevel (45/100) = 85/100
      ∧ scoreOwnershipLevel (30/100) ≠ scoreOwnershipLevel (45/100) := by
  norm_num [scoreOwnershipLevel]

/-- Claim C8 (amended): on the 30–60% ownership band the level curve rises
linearly, `score(w) = 0.7 + (w - 0.3)`, so it is strictly increasing there
rather than flat; the curve's maximum over `[0,1]` is `1`, attained at 60%
ownership (the right endpoint, just outside the band). -/
theorem claim_C8_band_rises (x y z : ℚ) (hx : 3/10 ≤ x) (hxy : x < y)
    (hy : y < 6/10) (hz0 : 0 ≤ z) (hz1 : z ≤ 1) :
    scoreOwnershipLevel x = 7/10 + (x - 3/10)
      ∧ scoreOwnershipLevel x < scoreOwnershipLevel y
      ∧ scoreOwnershipLevel z ≤ scoreOwnershipLevel (6/10)
      ∧ scoreOwnershipLevel (6/10) = 1 := by
  have hband : ∀ w : ℚ, 3/10 ≤ w → w < 6/10 →
      scoreOwnershipLevel w = 7/10 + (w - 3/10) := by
    intro w h1 h2
    have hw1 : ¬ (w < 10/100) := by linarith
    have hw2 : ¬ (w < 30/100) := by linarith
    have hw3 : w < 60/100 := by linarith
    simp only [scoreOwnershipLevel, if_neg hw1, if_neg hw2, if_pos hw3]
    ring
  have h6 : scoreOwnershipLevel (6/10) = 1 := by
    norm_num [scoreOwnershipLevel]
  refine ⟨hband x hx (lt_trans hxy hy), ?_, ?_, h6⟩
  · rw [hband x hx (lt_trans hxy hy), hband y (by linarith) hy]
    linarith
  · rw [h6]
    simp only [scoreOwnershipLevel]
    split_ifs with h1 h2 h3 h4 h5
    · have hv : z / (10/100) * (3/10) = 3 * z := by ring
      rw [hv]; linarith
    · have hv : 3/10 + (z - 10/100) / (20/100) * (4/10) = 3/10 + 2 * (z - 1/10) := by
        ring
      rw [hv]; linarith
    · have hv : 7/10 + (z - 30/100) / (30/100) * (3/10) = 7/10 + (z - 3/10) := by
        ring
      rw [hv]; linarith
    · have hv : 1 - (z - 60/100) / (20/100) * (15/100) = 1 - 3/4 * (z - 6/10) := by
        ring
      rw [hv]
      have : (0:ℚ) ≤ 3/4 * (z - 6/10) := by
        apply mul_nonneg (by norm_num)
        linarith [not_lt.mp h3]
      linarith
    · have hv : 85/100 - (z - 80/100) / (10/100) * (25/100)
          = 85/100 - 5/2 * (z - 8/10) := by ring
      rw [hv]
      have : (0:ℚ) ≤ 5/2 * (z - 8/10) := by
        apply mul_nonneg (by norm_num)
        linarith [not_lt.mp h4]
      linarith
    · apply max_le
      · have hz9 : 90/100 ≤ z := not_lt.mp h5
        have hv : 6/10 - (z - 90/100) / (10/100) * (3/10) = 6/10 - 3 * (z - 9/10) := by
          ring
        rw [hv]
        have : (0:ℚ) ≤ 3 * (z - 9/10) := by
          apply mul_nonneg (by norm_num)
          linarith
        linarith
      · norm_num

/-- Witness for C8 at held fractions 30%, 45% and 100%. -/
theorem claim_C8_witness :
    scoreOwnershipLevel (3/10) = 7/10 + ((3:ℚ)/10 - 3/10)
      ∧ scoreOwnershipLevel (3/10) < scoreOwnershipLevel (45/100)
      ∧ scoreOwnershipLevel 1 ≤ scoreOwnershipLevel (6/10)
      ∧ scoreOwnershipLevel (6/10) = 1 :=
  claim_C8_band_rises (3/10) (45/100) 1 (by norm_num) (by norm_num)
    (by norm_num) (by norm_num) (by norm_num)

/-- Claim C7 counterexample: an annual series with exactly three periods
(`Basic EPS` 1, 2, 4, so two growth observations of 100% each and no balance
sheet) is scored on the limited-data path — `(0.6·1 + 0.15·1 + 0.25·0) · 0.8
= 0.6` — not on the full path, which would give `0.5·1 + 0.3·1 + 0.2·0 = 0.8`
with no discount. -/
theorem claim_C7_counterexample :
    evaluate_a aFrame3 none none = (3/5, some 1, none)
      ∧ (3/5 : ℚ) ≠ settings.A_GROWTH_WEIGHT * 1 + settings.A_CONSISTENCY_WEIGHT * 1
          + settings.A_ROE_WEIGHT * 0 := by
  constructor
  · have hne : frameEmpty aFrame3 = false := rfl
    have hrow : findEarningsRow aFrame3 = some "Basic EPS" := by rfl
    have hvals : sortedRowVals aFrame3 "Basic EPS" = [some 1, some 2, some 4] := by rfl
    have hg : annualGrowths [some 1, some 2, some 4] = [some 1, some 1] := by
      have hr : List.range (([some (1:ℚ), some 2, some 4]).length - 1) = [0, 1] := rfl
      simp only [annualGrowths, hr, List.map_cons, List.map_nil, getOpt]
      norm_num [safeGrowth]
    simp only [evaluate_a, hne, Bool.false_eq_true, if_false, hrow, hvals, hg]
    norm_num [headOpt, resolveParam, clip, settings.A_GROWTH_TARGET,
      settings.A_MIN_YEARS_GROWTH, settings.A_IPO_DATA_DISCOUNT,
      List.filterMap_cons, List.filterMap_nil, List.filter_cons, List.filter_nil,
      List.isEmpty, decide_eq_true_eq]
  · norm_num [settings.A_GROWTH_WEIGHT, settings.A_CONSISTENCY_WEIGHT,
      settings.A_ROE_WEIGHT]

/-- Claim C7 (amended): `evaluate_a` branches on the number of year-over-year
growth observations, which is one fewer than the number of annual periods: the
full 50/30/20 weighting applies exactly when at least four annual periods
(three growth observations) are present, and with fewer — in particular with
exactly three annual periods — the 60/15/25 limited-data weighting multiplied
by the fixed 0.8 discount applies. -/
theorem claim_C7_path_threshold (af : StatementFrame) (tOpt : Option ℚ)
    (bsOpt : Option StatementFrame) (lbl : String) (e : List (Option ℚ)) (g : ℚ)
    (hne : frameEmpty af = false) (hrow : findEarningsRow af = some lbl)
    (he : sortedRowVals af lbl = e) (hlen : 2 ≤ e.length)
    (hg : headOpt (annualGrowths e) = some g) :
    (annualGrowths e).length = e.length - 1
      ∧ evaluate_a af tOpt bsOpt =
        (let t := resolveParam tOpt settings.A_GROWTH_TARGET
         let yoy := annualGrowths e
         let growth_score := clip (g / t) 0 2 / 2
         let roe : Option ℚ :=
           match bsOpt with
           | none => none
           | some bs => if frameEmpty bs then none else calculateRoe af bs
         let roe_score : ℚ :=
           match roe with
           | none => 0
           | some r => clip (r / settings.A_ROE_TARGET) 0 2 / 2
         if e.length < 4 then
           let valid := yoy.filterMap id
           let consistency_score :=
             if valid.isEmpty then 0
             else ((valid.filter (fun x => decide (x ≥ t))).length : ℚ) / (valid.length : ℚ)
           (clip ((60/100 * growth_score + 15/100 * consistency_score
             + 25/100 * roe_score) * (80/100)) 0 1, some g, roe)
         else
           let valid := (yoy.take 3).filterMap id
           let consistency_score :=
             if valid.isEmpty then 0
             else ((valid.filter (fun x => decide (x ≥ t))).length : ℚ) / (valid.length : ℚ)
           (clip (50/100 * growth_score + 30/100 * consistency_score
             + 20/100 * roe_score) 0 1, some g, roe)) := by
  refine ⟨annualGrowths_length e, ?_⟩
  have h2 : ¬ (e.length < 2) := by omega
  have hyl : (annualGrowths e).length = e.length - 1 := annualGrowths_length e
  have hiff : ((annualGrowths e).length < 3) = (e.length < 4) := by
    rw [hyl]
    simp only [eq_iff_iff]
    omega
  simp only [evaluate_a, hne, Bool.false_eq_true, if_false, hrow, he, h2, hg,
    settings.A_MIN_YEARS_GROWTH, settings.A_IPO_DATA_DISCOUNT,
    settings.A_GROWTH_WEIGHT, settings.A_CONSISTENCY_WEIGHT, settings.A_ROE_WEIGHT]
  simp only [hiff]

/-- Witness for C7 at a four-period annual series (three growth observations),
which the amended statement places on the full, undiscounted path. -/
theorem claim_C7_witness :
    (annualGrowths [some 1, some 2, some 4, some 8]).length
        = [some (1:ℚ), some 2, some 4, some 8].length - 1
      ∧ evaluate_a aFrame4 none none =
        (let t := resolveParam none settings.A_GROWTH_TARGET
         let yoy := annualGrowths [some 1, some 2, some 4, some 8]
         let growth_score := clip (1 / t) 0 2 / 2
         let roe : Option ℚ :=
           match (none : Option StatementFrame) with
           | none => none
           | some bs => if frameEmpty bs then none else calculateRoe aFrame4 bs
         let roe_score : ℚ :=
           match roe with
           | none => 0
           | some r => clip (r / settings.A_ROE_TARGET) 0 2 / 2
         if [some (1:ℚ), some 2, some 4, some 8].length < 4 then
           let valid := yoy.filterMap id
           let consistency_score :=
             if valid.isEmpty then 0
             else ((valid.filter (fun x => decide (x ≥ t))).length : ℚ) / (valid.length : ℚ)
           (clip ((60/100 * growth_score + 15/100 * consistency_score
             + 25/100 * roe_score) * (80/100)) 0 1, some 1, roe)
         else
           let valid := (yoy.take 3).filterMap id
           let consistency_score :=
             if valid.isEmpty then 0
             else ((valid.filter (fun x => decide (x ≥ t))).length : ℚ) / (valid.length : ℚ)
           (clip (50/100 * growth_score + 30/100 * consistency_score
             + 20/100 * roe_score) 0 1, some 1, roe)) :=
  claim_C7_path_threshold aFrame4 none none "Basic EPS"
    [some 1, some 2, some 4, some 8] 1 rfl (by rfl) (by rfl) (by norm_num)
    (by
      have hr : List.range (([some (1:ℚ), some 2, some 4, some 8]).length - 1)
          = [0, 1, 2] := rfl
      simp only [annualGrowths, hr, List.map_cons, List.map_nil, getOpt, headOpt]
      norm_num [safeGrowth])

/-- Claim C5 counterexample: a configuration whose composite weights sum to
`1.3` and whose C growth target is negative is accepted unchanged by the
configuration load — no hard error is raised. -/
theorem claim_C5_counterexample :
    (badSettings.canslim_weight_c + badSettings.canslim_weight_a
        + badSettings.canslim_weight_n + badSettings.canslim_weight_s
        + badSettings.canslim_weight_l + badSettings.canslim_weight_i
        + badSettings.canslim_weight_m ≠ 1)
      ∧ badSettings.c_growth_target ≤ 0
      ∧ loadSettings badSettings = Except.ok badSettings := by
  refine ⟨?_, ?_, rfl⟩
  · norm_num [badSettings, defaultSettings]
  · norm_num [badSettings, defaultSettings]

/-- Claim C5 (amended): loading the configuration performs no validation at
all — every configuration, valid or not, is accepted unchanged — while the
shipped default values do satisfy the stated constraints (every weight group
sums to 1 and every cap/target is positive). -/
theorem claim_C5_no_load_validation (cfg : SettingsConfig) :
    loadSettings cfg = Except.ok cfg ∧ settingsValid defaultSettings = true :=
  ⟨rfl, by
    simp only [settingsValid, defaultSettings, Bool.and_eq_true, decide_eq_true_eq]
    norm_num⟩

end RSBot
